import Mathlib

/-!
Shallow embedding of the fuel-finder backend core (src/server.js):
haversine distance, access-token manager, paginated batch fetcher,
tiered in-memory caches, and the /cheapest handler pipeline
(station map, price join, distance filter, sort, response assembly).

Numbers are modelled over ℚ (ℝ for the haversine formula); upstream
network effects (token exchange, page fetches, geocoding) are passed in
as explicit oracle values of type `Except String _`, matching the
thrown-Error control flow of the JavaScript. JavaScript truthiness of
nullable fields is modelled explicitly (`falsyNum`, `strOrDefault`).
-/

deriving instance DecidableEq for Except

namespace FuelFinder

/-- `round2`: JS `Math.round(x * 100) / 100` (round half toward +∞). -/
def round2 (x : ℚ) : ℚ := (⌊x * 100 + 1/2⌋ : ℚ) / 100

/-- `toRad` from `haversineKm`: degrees × π / 180. -/
noncomputable def toRad (d : ℝ) : ℝ := d * Real.pi / 180

/-- `haversineKm(lat1, lon1, lat2, lon2)` with Earth radius R = 6371 km,
central angle `2 * asin(sqrt(a))`; the source's temporaries
`dLat = toRad(lat2 - lat1)` and `dLon = toRad(lon2 - lon1)` are inlined. -/
noncomputable def haversineKm (lat1 lon1 lat2 lon2 : ℝ) : ℝ :=
  2 * 6371 * Real.arcsin (Real.sqrt
    (Real.sin (toRad (lat2 - lat1) / 2) ^ 2 +
     Real.cos (toRad lat1) * Real.cos (toRad lat2) * Real.sin (toRad (lon2 - lon1) / 2) ^ 2))

/-! ## Token manager (`getToken`, lines 43-77) -/

/-- The module-level `tokenCache = { token: null, expMs: 0 }`. -/
structure TokenState where
  token : Option String
  expMs : Int
deriving DecidableEq

/-- Parsed token-endpoint success body: `json?.data?.access_token` (`none`
models an absent or falsy field, which the code rejects) and
`Number(json?.data?.expires_in ?? 3600)` in seconds. -/
structure TokenResp where
  access_token : Option String
  expires_in : Int
deriving DecidableEq

/-- The exchange branch of `getToken`: throws on missing config, a non-ok
HTTP exchange, or a missing `access_token`; otherwise stores
`{token, now + max(60, expiresIn) * 1000}` and reports one network call. -/
def getTokenExchange (now : Int) (cfgOk : Bool)
    (exchange : Except String TokenResp) : Except String (String × TokenState × Nat) :=
  if cfgOk = false then .error "Missing FF_CLIENT_ID or FF_CLIENT_SECRET env vars"
  else
    match exchange with
    | .error e => .error e
    | .ok resp =>
      match resp.access_token with
      | none => .error "Token missing access_token"
      | some tok =>
        .ok (tok, { token := some tok, expMs := now + max 60 resp.expires_in * 1000 }, 1)

/-- `getToken`: cached fast path when `tokenCache.token && now < expMs - 30_000`,
else the exchange branch. Result carries the returned token, the token
state after the call, and the number of network calls made. The model
takes a single `now` (time does not advance inside one call). -/
def getToken (st : TokenState) (now : Int) (cfgOk : Bool)
    (exchange : Except String TokenResp) : Except String (String × TokenState × Nat) :=
  match st.token with
  | some t =>
    if now < st.expMs - 30000 then .ok (t, st, 0)
    else getTokenExchange now cfgOk exchange
  | none => getTokenExchange now cfgOk exchange

/-! ## Tiered caches (`getStationsCached` / `getPricesCached`, lines 101-119) -/

/-- A module-level cache slot `{ data: null, expMs: 0 }`. -/
structure CacheSlot (α : Type) where
  data : Option α
  expMs : Int
deriving DecidableEq

/-- The refresh branch shared by both cached getters: a failed refresh
propagates the error and leaves the slot untouched; a successful one
replaces the slot wholesale with expiry `now + ttl`. -/
def refreshSlot {α : Type} (slot : CacheSlot α) (now ttl : Int)
    (refresh : Except String α) : Except String α × CacheSlot α :=
  match refresh with
  | .error e => (.error e, slot)
  | .ok d => (.ok d, { data := some d, expMs := now + ttl })

/-- Common body of the two cached getters: `if (cache.data && now < cache.expMs)
return cache.data`, else refresh. Returns the result and the slot after. -/
def getCached {α : Type} (slot : CacheSlot α) (now ttl : Int)
    (refresh : Except String α) : Except String α × CacheSlot α :=
  match slot.data with
  | some d => if now < slot.expMs then (.ok d, slot) else refreshSlot slot now ttl refresh
  | none => refreshSlot slot now ttl refresh

/-- `getStationsCached`: 24-hour TTL slot. -/
def getStationsCached {α : Type} (slot : CacheSlot α) (now : Int)
    (refresh : Except String α) : Except String α × CacheSlot α :=
  getCached slot now (24 * 60 * 60 * 1000) refresh

/-- `getPricesCached`: 5-minute TTL slot. -/
def getPricesCached {α : Type} (slot : CacheSlot α) (now : Int)
    (refresh : Except String α) : Except String α × CacheSlot α :=
  getCached slot now (5 * 60 * 1000) refresh

/-! ## Paginated fetcher (`fetchBatches`, lines 79-99) -/

/-- Outcome of one page request: a thrown fetch error (non-ok HTTP status),
a JSON body that is not an array, or a JSON array of records. -/
inductive PageResp (α : Type) where
  | err (e : String)
  | nonArr
  | arr (records : List α)
deriving DecidableEq

/-- Loop body of `fetchBatches`: the first argument counts the remaining
iterations of `for (batch = 1; batch <= 200; batch++)` (initially 200, so
`batch + remaining = 201` throughout); returns the accumulated records and
the number of page requests made. -/
def fetchBatchesAux {α : Type} (f : Nat → PageResp α) :
    Nat → Nat → List α → Except String (List α × Nat)
  | 0, batch, acc => .ok (acc, batch - 1)
  | remaining + 1, batch, acc =>
    match f batch with
    | .err e => .error e
    | .nonArr => .ok (acc, batch)
    | .arr [] => .ok (acc, batch)
    | .arr (j :: js) => fetchBatchesAux f remaining (batch + 1) (acc ++ (j :: js))

/-- `fetchBatches(url, token)`: pages are requested as `batch-number` 1, 2, …;
the page oracle `f` stands for one authorized GET of the given batch. -/
def fetchBatches {α : Type} (f : Nat → PageResp α) : Except String (List α × Nat) :=
  fetchBatchesAux f 200 1 []

/-! ## Ranking pipeline (handler lines 163-206) -/

/-- One element of a price record's `fuel_prices` array: `fuel_type` (always
stringified by the code) and `price` (`none` models `typeof price !== "number"`). -/
structure FuelPriceEntry where
  fuel_type : String
  price : Option ℚ
deriving DecidableEq

/-- A raw upstream price record: `node_id` (may be absent) and `fuel_prices`
(`none` models a field that is not an array). -/
structure PriceRec where
  node_id : Option String
  fuel_prices : Option (List FuelPriceEntry)
deriving DecidableEq

/-- A raw station's `location` object; `none` coordinates model values for
which `Number.isFinite(Number(v))` is false. -/
structure RawLocation where
  latitude : Option ℚ
  longitude : Option ℚ
  postcode : Option String
deriving DecidableEq

/-- A raw upstream station record as consumed by the station-map loop. -/
structure RawStation where
  node_id : Option String
  location : Option RawLocation
  trading_name : Option String
  brand_name : Option String
deriving DecidableEq

/-- A validated station as stored in `stationById`. -/
structure Station where
  node_id : String
  trading_name : String
  brand_name : Option String
  postcode : String
  latitude : ℚ
  longitude : ℚ
deriving DecidableEq

/-- One element of the handler's `results` array. -/
structure RankedResult where
  node_id : String
  trading_name : String
  brand_name : Option String
  postcode : String
  latitude : ℚ
  longitude : ℚ
  distance_km : ℚ
  price_ppl : ℚ
deriving DecidableEq

/-- JS `s || d` for an optional string field: falsy when absent or empty. -/
def strOrDefault (s : Option String) (d : String) : String :=
  match s with
  | some v => if v = "" then d else v
  | none => d

/-- JS `s || null` for an optional string field. -/
def strOrNull (s : Option String) : Option String :=
  match s with
  | some v => if v = "" then none else some v
  | none => none

/-- One iteration of the station-map loop (lines 165-180): skip when the id
is falsy or either coordinate is non-finite, else normalise the record. -/
def mkStation (s : RawStation) : Option Station :=
  let loc := s.location.getD { latitude := none, longitude := none, postcode := none }
  match s.node_id, loc.latitude, loc.longitude with
  | some id, some la, some lo =>
    if id = "" then none
    else some { node_id := id, trading_name := strOrDefault s.trading_name "Unknown",
                brand_name := strOrNull s.brand_name,
                postcode := strOrDefault loc.postcode "",
                latitude := la, longitude := lo }
  | _, _, _ => none

/-- JS `Map.set`: replace in place when the key exists, else append. -/
def mapSet {α : Type} (m : List (String × α)) (k : String) (v : α) : List (String × α) :=
  match m with
  | [] => [(k, v)]
  | (k0, v0) :: rest => if k0 = k then (k, v) :: rest else (k0, v0) :: mapSet rest k v

/-- JS `Map.get`. -/
def mapGet {α : Type} (m : List (String × α)) (k : String) : Option α :=
  match m with
  | [] => none
  | (k0, v0) :: rest => if k0 = k then some v0 else mapGet rest k

/-- `stationById` built by the loop over `stations`. -/
def buildStationMap (stations : List RawStation) : List (String × Station) :=
  stations.foldl (fun m s =>
    match mkStation s with
    | none => m
    | some st => mapSet m st.node_id st) []

/-- One price record through the join/filter loop (lines 183-204): look up the
station, find the first case-insensitive fuel-type match with a numeric
price, compute the distance and drop the record when it exceeds the radius. -/
def rankOne (dist : ℚ → ℚ → ℚ → ℚ → ℚ) (lat lon : ℚ) (fuel : String) (radiusKm : ℚ)
    (m : List (String × Station)) (p : PriceRec) : Option RankedResult := do
  let id ← p.node_id
  let st ← mapGet m id
  let fp ← (p.fuel_prices.getD []).find? (fun e => e.fuel_type.toUpper == fuel)
  let price ← fp.price
  let d := dist lat lon st.latitude st.longitude
  if d > radiusKm then none
  else some { node_id := st.node_id, trading_name := st.trading_name,
              brand_name := st.brand_name, postcode := st.postcode,
              latitude := st.latitude, longitude := st.longitude,
              distance_km := round2 d, price_ppl := price }

/-- The comparator `(a, b) => (a.price_ppl - b.price_ppl) || (a.distance_km - b.distance_km)`
as a boolean "less or equal": price strictly below, or equal price and
distance below or equal. -/
def resultLE (a b : RankedResult) : Bool :=
  decide (a.price_ppl < b.price_ppl ∨ (a.price_ppl = b.price_ppl ∧ a.distance_km ≤ b.distance_km))

/-- `results.sort(comparator)` of line 206. -/
def sortResults (l : List RankedResult) : List RankedResult :=
  l.mergeSort resultLE

/-- The whole ranking step: build the station map, join and filter every
price record, then sort. The distance function is a parameter (the server
passes `haversineKm`); claims about the ranking step hold for any. -/
def rankResults (dist : ℚ → ℚ → ℚ → ℚ → ℚ) (lat lon : ℚ) (fuel : String) (radiusKm : ℚ)
    (stations : List RawStation) (prices : List PriceRec) : List RankedResult :=
  sortResults (prices.filterMap (rankOne dist lat lon fuel radiusKm (buildStationMap stations)))

/-! ## The /cheapest handler (lines 136-218) -/

/-- Parsed query parameters; `none` models an absent parameter
(`req.query.x ?? default` and `req.query.lat != null ? Number(...) : null`). -/
structure Query where
  fuel : Option String
  radiusKm : Option ℚ
  limit : Option Int
  lat : Option ℚ
  lon : Option ℚ
  postcode : Option String
deriving DecidableEq

/-- Oracle outcomes of the handler's upstream calls: `geocodePostcode`,
`getToken`, and the two cached dataset fetches. -/
structure Env where
  geocode : Except String (ℚ × ℚ)
  token : Except String String
  stations : Except String (List RawStation)
  prices : Except String (List PriceRec)

/-- The JSON body sent by the handler, together with the HTTP status. Fields
absent from a given body shape are `none`. -/
structure Response where
  status : Nat
  ok : Bool
  error : Option String
  center : Option (ℚ × ℚ)
  fuel : Option String
  radiusKm : Option ℚ
  count : Option Int
  results : Option (List RankedResult)
deriving DecidableEq

/-- JS truthiness test `!x` of a nullable number: truthy-false when the value
is null or 0. -/
def falsyNum (x : Option ℚ) : Bool :=
  match x with
  | none => true
  | some v => v == 0

/-- An error response body `{ ok: false, error: msg }` with the given status. -/
def errResponse (status : Nat) (msg : String) : Response :=
  { status := status, ok := false, error := some msg, center := none, fuel := none,
    radiusKm := none, count := none, results := none }

/-- Success-path response assembly (lines 207-214): status 200 with
`count = Math.min(results.length, limit)` and
`results.slice(0, Math.max(1, limit))`. -/
def assembleResponse (lat lon : ℚ) (fuel : String) (radiusKm : ℚ) (limit : Int)
    (results : List RankedResult) : Response :=
  { status := 200, ok := true, error := none, center := some (lat, lon), fuel := some fuel,
    radiusKm := some radiusKm, count := some (min (results.length : Int) limit),
    results := some (results.take (max 1 limit).toNat) }

/-- The handler after origin resolution: the `!lat || !lon` guard (400), then
token, stations and prices in order (a thrown error lands in the catch
branch: status 500 with the error message), then ranking and assembly. -/
def cheapestWithOrigin (dist : ℚ → ℚ → ℚ → ℚ → ℚ) (fuel : String) (radiusKm : ℚ)
    (limit : Int) (env : Env) (lat lon : Option ℚ) : Response :=
  if falsyNum lat || falsyNum lon then errResponse 400 "Provide postcode or lat/lon"
  else
    match lat, lon with
    | some la, some lo =>
      match env.token with
      | .error e => errResponse 500 e
      | .ok _tok =>
        match env.stations with
        | .error e => errResponse 500 e
        | .ok stations =>
          match env.prices with
          | .error e => errResponse 500 e
          | .ok prices =>
            assembleResponse la lo fuel radiusKm limit
              (rankResults dist la lo fuel radiusKm stations prices)
    | _, _ => errResponse 400 "Provide postcode or lat/lon"

/-- The /cheapest handler: parameter defaulting, the
`(!lat || !lon) && postcode` geocoding step (a geocode failure is thrown
into the catch branch: status 500), then `cheapestWithOrigin`. The second
component records whether `geocodePostcode` was called. -/
def cheapestHandler (dist : ℚ → ℚ → ℚ → ℚ → ℚ) (q : Query) (env : Env) : Response × Bool :=
  let fuel := (q.fuel.getD "E10").toUpper
  let radiusKm := q.radiusKm.getD 10
  let limit := q.limit.getD 10
  let postcode := q.postcode.getD ""
  if (falsyNum q.lat || falsyNum q.lon) && postcode != "" then
    match env.geocode with
    | .error e => (errResponse 500 e, true)
    | .ok (glat, glon) =>
      (cheapestWithOrigin dist fuel radiusKm limit env (some glat) (some glon), true)
  else
    (cheapestWithOrigin dist fuel radiusKm limit env q.lat q.lon, false)

/-! ## Concrete inputs used in witnesses and counterexamples -/

/-- A degenerate distance function (everything at distance 0), used where a
scenario does not depend on the geometry. -/
def distZero : ℚ → ℚ → ℚ → ℚ → ℚ := fun _ _ _ _ => 0

/-- Concrete page sequence [[1, 2], [3], [], [], …]. -/
def pagesEx : ℕ → List ℕ :=
  fun i => if i = 1 then [1, 2] else if i = 2 then [3] else []

/-- Concrete page oracle: page 1 is the array [5], page 2 is a JSON body that
is not an array. -/
def pagesNonArr : ℕ → PageResp ℕ :=
  fun i => if i = 1 then .arr [5] else .nonArr

/-- A query giving valid direct coordinates lat 51, lon 0 (on the Greenwich
meridian) and also a postcode. -/
def qGreenwich : Query :=
  { fuel := none
    radiusKm := none
    limit := none
    lat := some 51
    lon := some 0
    postcode := some "SE10 8XJ" }

/-- A query giving valid direct coordinates lat 51, lon 0 and no postcode. -/
def qLonZero : Query :=
  { fuel := none
    radiusKm := none
    limit := none
    lat := some 51
    lon := some 0
    postcode := none }

/-- An environment whose geocoder resolves to (57, -2) and whose datasets are
empty but healthy. -/
def envGeo : Env :=
  { geocode := .ok (57, -2)
    token := .ok "tok"
    stations := .ok []
    prices := .ok [] }

/-- A single ranked result (station "A", E10 at 140). -/
def rEx : RankedResult :=
  { node_id := "A"
    trading_name := "SA"
    brand_name := none
    postcode := "P1"
    latitude := 1
    longitude := 1
    distance_km := 0
    price_ppl := 140 }

/-- A second ranked result (station "B", E10 at 139, the cheaper one). -/
def rEx2 : RankedResult :=
  { node_id := "B"
    trading_name := "SB"
    brand_name := some "Br"
    postcode := "P2"
    latitude := 1
    longitude := 1
    distance_km := 0
    price_ppl := 139 }

/-! ## Helper lemmas -/

/-- The sort comparator is transitive (as a boolean relation). -/
lemma resultLE_trans (a b c : RankedResult) (hab : resultLE a b = true)
    (hbc : resultLE b c = true) : resultLE a c = true := by
  simp only [resultLE, decide_eq_true_eq] at hab hbc ⊢
  rcases hab with h1 | ⟨h1, h2⟩ <;> rcases hbc with h3 | ⟨h3, h4⟩
  · exact Or.inl (h1.trans h3)
  · exact Or.inl (h3 ▸ h1)
  · exact Or.inl (h1 ▸ h3)
  · exact Or.inr ⟨h1.trans h3, h2.trans h4⟩

/-- The sort comparator is total. -/
lemma resultLE_total (a b : RankedResult) : (resultLE a b || resultLE b a) = true := by
  simp only [resultLE, Bool.or_eq_true, decide_eq_true_eq]
  rcases lt_trichotomy a.price_ppl b.price_ppl with h | h | h
  · exact Or.inl (Or.inl h)
  · rcases le_total a.distance_km b.distance_km with hd | hd
    · exact Or.inl (Or.inr ⟨h, hd⟩)
    · exact Or.inr (Or.inr ⟨h.symm, hd⟩)
  · exact Or.inr (Or.inl h)

/-- Running the fetch loop from `batch` when every page before `k` is a
nonempty array and page `k` is empty or not an array: the loop returns the
accumulator extended by pages `batch .. k-1` after exactly `k` requests. -/
lemma fetchBatchesAux_terminates {α : Type} (f : ℕ → PageResp α) (p : ℕ → List α) :
    ∀ (remaining batch : ℕ) (acc : List α) (k : ℕ),
      batch + remaining = 201 → batch ≤ k → k ≤ 200 →
      (∀ i, batch ≤ i → i < k → f i = PageResp.arr (p i) ∧ p i ≠ []) →
      (f k = PageResp.nonArr ∨ f k = PageResp.arr []) →
      fetchBatchesAux f remaining batch acc =
        .ok (acc ++ ((List.range' batch (k - batch)).map p).flatten, k) := by
  intro remaining
  induction remaining with
  | zero => intro batch acc k h201 hbk hk200 _ _; omega
  | succ n ih =>
    intro batch acc k h201 hbk hk200 hmid hstop
    rcases Nat.eq_or_lt_of_le hbk with heq | hlt
    · subst heq
      simp only [fetchBatchesAux, Nat.sub_self, List.range']
      rcases hstop with h | h <;> rw [h] <;> simp
    · obtain ⟨hfb1, hfb2⟩ := hmid batch le_rfl hlt
      obtain ⟨j, js, hjs⟩ : ∃ j js, p batch = j :: js := by
        cases hp : p batch with
        | nil => exact absurd hp hfb2
        | cons j js => exact ⟨j, js, rfl⟩
      simp only [fetchBatchesAux]
      rw [hfb1, hjs]
      show fetchBatchesAux f n (batch + 1) (acc ++ (j :: js)) =
        Except.ok (acc ++ (List.map p (List.range' batch (k - batch))).flatten, k)
      rw [ih (batch + 1) (acc ++ (j :: js)) k (by omega) hlt hk200
            (fun i hi1 hi2 => hmid i (by omega) hi2) hstop]
      have hr : List.range' batch (k - batch) = batch :: List.range' (batch + 1) (k - batch - 1) := by
        have hsk : k - batch = (k - batch - 1) + 1 := by omega
        nth_rewrite 1 [hsk]
        rw [List.range'_succ]
      rw [hr]
      simp [hjs, List.append_assoc, Nat.sub_sub]

/-- Running the fetch loop from `batch` when every remaining page up to the
bound 200 is a nonempty array: the loop soft-stops at the bound, returning
all pages `batch .. 200` after 200 requests. -/
lemma fetchBatchesAux_bound {α : Type} (f : ℕ → PageResp α) (p : ℕ → List α) :
    ∀ (remaining batch : ℕ) (acc : List α),
      batch + remaining = 201 →
      (∀ i, batch ≤ i → i ≤ 200 → f i = PageResp.arr (p i) ∧ p i ≠ []) →
      fetchBatchesAux f remaining batch acc =
        .ok (acc ++ ((List.range' batch remaining).map p).flatten, 200) := by
  intro remaining
  induction remaining with
  | zero =>
    intro batch acc h201 _
    simp only [fetchBatchesAux, List.range']
    have : batch - 1 = 200 := by omega
    simp [this]
  | succ n ih =>
    intro batch acc h201 hall
    obtain ⟨hfb1, hfb2⟩ := hall batch le_rfl (by omega)
    obtain ⟨j, js, hjs⟩ : ∃ j js, p batch = j :: js := by
      cases hp : p batch with
      | nil => exact absurd hp hfb2
      | cons j js => exact ⟨j, js, rfl⟩
    simp only [fetchBatchesAux]
    rw [hfb1, hjs]
    show fetchBatchesAux f n (batch + 1) (acc ++ (j :: js)) =
      Except.ok (acc ++ (List.map p (List.range' batch (n + 1))).flatten, 200)
    rw [ih (batch + 1) (acc ++ (j :: js)) (by omega)
          (fun i hi1 hi2 => hall i (by omega) hi2)]
    rw [List.range'_succ]
    simp [hjs, List.append_assoc]

/-- Claim C1: for every list of surviving (station, price) pairs, the list
returned by the ranking step's sort is a permutation of the survivors and
is sorted ascending by price, with ties of equal price broken by ascending
(stored, 2-decimal-rounded) distance from the query origin. -/
theorem c1_ranking_sorted_price_then_distance (l : List RankedResult) :
    (sortResults l).Perm l ∧
    List.Pairwise (fun a b => a.price_ppl < b.price_ppl ∨
      (a.price_ppl = b.price_ppl ∧ a.distance_km ≤ b.distance_km)) (sortResults l) := by
  constructor
  · exact List.mergeSort_perm l resultLE
  · have h := List.sorted_mergeSort resultLE_trans resultLE_total l
    exact h.imp fun hab => by simpa only [resultLE, decide_eq_true_eq] using hab

/-- Claim C8: with every page an array, the fetcher requests sequential
1-indexed pages and appends their records; it stops at the first empty page
— for pages [P1, P2, []] with P1, P2 nonempty (page 3 being the first empty
page) it returns P1 ++ P2 after exactly 3 requests — and, when no page up
to the safety bound 200 is empty, it soft-stops at the bound with all 200
pages' records and no error. -/
theorem c8_fetch_pagination {α : Type} (p : ℕ → List α) :
    (∀ k, 1 ≤ k → k ≤ 200 → (∀ i, 1 ≤ i → i < k → p i ≠ []) → p k = [] →
      fetchBatches (fun i => PageResp.arr (p i)) =
        .ok (((List.range' 1 (k - 1)).map p).flatten, k)) ∧
    ((∀ i, 1 ≤ i → i ≤ 200 → p i ≠ []) →
      fetchBatches (fun i => PageResp.arr (p i)) =
        .ok (((List.range' 1 200).map p).flatten, 200)) := by
  constructor
  · intro k h1 h200 hne hk
    have h := fetchBatchesAux_terminates (fun i => PageResp.arr (p i)) p 200 1 [] k
      (by omega) h1 h200 (fun i hi1 hi2 => ⟨rfl, hne i hi1 hi2⟩) (Or.inr (by simp [hk]))
    simpa [fetchBatches] using h
  · intro hall
    have h := fetchBatchesAux_bound (fun i => PageResp.arr (p i)) p 200 1 []
      (by omega) (fun i hi1 hi2 => ⟨rfl, hall i hi1 hi2⟩)
    simpa [fetchBatches] using h

/-- Witness for C8 at pages [P1, P2, []] with P1 = [1, 2] and P2 = [3]:
the result is P1 ++ P2 = [1, 2, 3] after exactly 3 page requests. -/
theorem c8_fetch_pagination_witness :
    fetchBatches (fun i => PageResp.arr (pagesEx i)) = .ok ([1, 2, 3], 3) := by
  have h := (c8_fetch_pagination pagesEx).1 3 (by omega) (by omega)
    (by intro i h1 h2; interval_cases i <;> decide) (by decide)
  simpa [pagesEx] using h

/-- Counterexample to claim C3 as stated: when page 2's body is not an array,
`fetchBatches` does not fail — it returns the records accumulated so far
(page 1's [5]) as a success, after 2 page requests. -/
theorem c3_counterexample_nonarray_is_soft_stop :
    fetchBatches pagesNonArr = .ok ([5], 2) := by decide

/-- Claim C3 amended: a page body that is not an array is treated like an
empty page — the fetch stops there and returns the records accumulated from
the earlier pages as a success (no malformed-page error is raised). -/
theorem c3_amended_nonarray_stops_with_accumulated {α : Type} (f : ℕ → PageResp α)
    (p : ℕ → List α) (k : ℕ) (h1 : 1 ≤ k) (h2 : k ≤ 200)
    (hmid : ∀ i, 1 ≤ i → i < k → f i = PageResp.arr (p i) ∧ p i ≠ [])
    (hk : f k = PageResp.nonArr) :
    fetchBatches f = .ok (((List.range' 1 (k - 1)).map p).flatten, k) := by
  have h := fetchBatchesAux_terminates f p 200 1 [] k (by omega) h1 h2 hmid (Or.inl hk)
  simpa [fetchBatches] using h

/-- Witness for the amended C3 at the concrete oracle `pagesNonArr`. -/
theorem c3_amended_witness :
    fetchBatches pagesNonArr = .ok (([5] : List ℕ), 2) := by
  have h := c3_amended_nonarray_stops_with_accumulated pagesNonArr
    (fun i => if i = 1 then [5] else []) 2 (by omega) (by omega)
    (by intro i hi1 hi2; interval_cases i; decide) (by decide)
  simpa using h

/-- Counterexample to claim C6 as stated: no single margin fits the code.
The code's safety margin is the 30 s of the freshness check, but a fresh
exchange at now = 0 with serverExpiresIn = 3600 stores expiry 3 600 000 ms,
which is not now + max(60, 3600)·1000 − 30000; and under the margin = 0
reading (which would fit the store formula), a call at now = 3 599 999 —
inside expiry − 0 — still performs a network exchange instead of returning
the cached token with zero network calls. -/
theorem c6_counterexample_margin :
    getToken ⟨none, 0⟩ 0 true (.ok ⟨some "t", 3600⟩) =
      .ok ("t", ⟨some "t", 3600000⟩, 1) ∧
    (3600000 : Int) ≠ 0 + max 60 3600 * 1000 - 30000 ∧
    getToken ⟨some "t", 3600000⟩ 3599999 true (.ok ⟨some "u", 3600⟩) =
      .ok ("u", ⟨some "u", 3599999 + 3600000⟩, 1) := by
  refine ⟨by decide, by decide, by decide⟩

/-- Claim C6 amended: a successful exchange stores a credential whose expiry
is now + max(60 s, serverExpiresIn)·1000 ms with no margin subtracted at
store time; a subsequent call holding a cached token with
now < expiry − 30 000 ms (the 30 s margin lives in the freshness check)
returns the cached token unchanged with zero network calls. -/
theorem c6_amended_token_store_and_cache :
    (∀ (st : TokenState) (now : Int) (tok : String) (expiresIn : Int),
      (st.token = none ∨ st.expMs - 30000 ≤ now) →
      getToken st now true (.ok ⟨some tok, expiresIn⟩) =
        .ok (tok, ⟨some tok, now + max 60 expiresIn * 1000⟩, 1)) ∧
    (∀ (st : TokenState) (now : Int) (t : String) (cfgOk : Bool)
        (exchange : Except String TokenResp),
      st.token = some t → now < st.expMs - 30000 →
      getToken st now cfgOk exchange = .ok (t, st, 0)) := by
  constructor
  · intro st now tok expiresIn h
    rcases h with h | h
    · simp [getToken, h, getTokenExchange]
    · cases ht : st.token with
      | none => simp [getToken, ht, getTokenExchange]
      | some t => simp [getToken, ht, not_lt.mpr h, getTokenExchange]
  · intro st now t cfgOk exchange ht hlt
    simp [getToken, ht, hlt]

/-- Witness for the amended C6: a cold-state exchange stores the margin-free
expiry, and a later call inside the 30 s margin is served from cache with
zero network calls. -/
theorem c6_amended_witness :
    getToken ⟨none, 0⟩ 0 true (.ok ⟨some "t", 3600⟩) =
      .ok ("t", ⟨some "t", 0 + max 60 3600 * 1000⟩, 1) ∧
    getToken ⟨some "t", 3600000⟩ 100 true (.ok ⟨some "u", 60⟩) =
      .ok ("t", ⟨some "t", 3600000⟩, 0) := by
  constructor
  · exact (c6_amended_token_store_and_cache).1 ⟨none, 0⟩ 0 "t" 3600 (Or.inl rfl)
  · exact (c6_amended_token_store_and_cache).2 ⟨some "t", 3600000⟩ 100 "t" true
      (.ok ⟨some "u", 60⟩) rfl (by decide)

/-- Claim C7: for both cache slots, when the cached entry is expired (or the
slot is empty) and the refresh fails, the error propagates and the slot is
returned unchanged — the stale value is neither served nor discarded — and
a subsequent call on the same slot performs the refresh again (here: a
succeeding retry replaces the slot wholesale with the slot's own TTL). -/
theorem c7_cache_refresh_failure (A : Type) (slot : CacheSlot A) (now retry : Int)
    (e : String) (hexp : slot.data = none ∨ slot.expMs ≤ now) :
    (getStationsCached slot now (.error e) = (.error e, slot) ∧
     getPricesCached slot now (.error e) = (.error e, slot)) ∧
    (slot.expMs ≤ retry →
      ∀ v : A, getStationsCached slot retry (.ok v) =
          (.ok v, ⟨some v, retry + 24 * 60 * 60 * 1000⟩) ∧
        getPricesCached slot retry (.ok v) =
          (.ok v, ⟨some v, retry + 5 * 60 * 1000⟩)) := by
  have key : ∀ (t m : Int) (r : Except String A), (slot.data = none ∨ slot.expMs ≤ m) →
      getCached slot m t r = refreshSlot slot m t r := by
    intro t m r h
    rcases h with h | h
    · simp [getCached, h]
    · cases hd : slot.data with
      | none => simp [getCached, hd]
      | some d => simp [getCached, hd, not_lt.mpr h]
  refine ⟨⟨?_, ?_⟩, ?_⟩
  · rw [getStationsCached, key _ _ _ hexp]; rfl
  · rw [getPricesCached, key _ _ _ hexp]; rfl
  · intro hretry v
    have hexp2 : slot.data = none ∨ slot.expMs ≤ retry := Or.inr hretry
    constructor
    · rw [getStationsCached, key _ _ _ hexp2]; rfl
    · rw [getPricesCached, key _ _ _ hexp2]; rfl

/-- Witness for C7: an expired stations/prices slot holding stale data [1],
a failing refresh at t = 10, and a succeeding retry at t = 20. -/
theorem c7_cache_refresh_failure_witness :
    (getStationsCached (⟨some [1], 5⟩ : CacheSlot (List ℕ)) 10 (.error "boom") =
        (.error "boom", ⟨some [1], 5⟩) ∧
     getPricesCached (⟨some [1], 5⟩ : CacheSlot (List ℕ)) 10 (.error "boom") =
        (.error "boom", ⟨some [1], 5⟩)) ∧
    (getStationsCached (⟨some [1], 5⟩ : CacheSlot (List ℕ)) 20 (.ok [7]) =
        (.ok [7], ⟨some [7], 20 + 24 * 60 * 60 * 1000⟩) ∧
     getPricesCached (⟨some [1], 5⟩ : CacheSlot (List ℕ)) 20 (.ok [7]) =
        (.ok [7], ⟨some [7], 20 + 5 * 60 * 1000⟩)) := by
  have h := c7_cache_refresh_failure (List ℕ) ⟨some [1], 5⟩ 10 20 "boom" (Or.inr (by decide))
  exact ⟨h.1, h.2 (by decide) [7]⟩

/-- Claim C9: the haversine distance of a coordinate pair to itself is 0, and
the distance is symmetric in its two coordinate pairs. -/
theorem c9_haversine_refl_zero_and_symm (lat1 lon1 lat2 lon2 : ℝ) :
    haversineKm lat1 lon1 lat1 lon1 = 0 ∧
    haversineKm lat1 lon1 lat2 lon2 = haversineKm lat2 lon2 lat1 lon1 := by
  constructor
  · simp [haversineKm, toRad]
  · have h1 : toRad (lat1 - lat2) = -(toRad (lat2 - lat1)) := by
      unfold toRad; ring
    have h2 : toRad (lon1 - lon2) = -(toRad (lon2 - lon1)) := by
      unfold toRad; ring
    unfold haversineKm
    rw [h1, h2]
    simp only [neg_div, Real.sin_neg, neg_sq]
    ring_nf

/-- Claim C4 (code bug): valid direct coordinates with longitude 0 (Greenwich)
are treated as missing by the `!lat || !lon` truthiness test — with a
postcode present the postcode IS geocoded and its coordinates become the
origin, and without a postcode the request is rejected with 400 — contrary
to the contract that coordinates anywhere in the valid ranges, including 0,
take precedence and suppress geocoding. -/
theorem c4_zero_coordinate_treated_as_missing :
    ((cheapestHandler distZero qGreenwich envGeo).2 = true ∧
     (cheapestHandler distZero qGreenwich envGeo).1.center = some (57, -2) ∧
     (cheapestHandler distZero qGreenwich envGeo).1.center ≠ some (51, 0)) ∧
    (cheapestHandler distZero qLonZero envGeo).1.status = 400 := by
  refine ⟨⟨by decide, by decide, by decide⟩, by decide⟩

/-- Counterexample to claim C2 as stated: the success-path response assembly,
applied to two surviving (station, price) pairs with limit 1, reports
count 1, not the untruncated total 2 — the response does not contain the
untruncated count. -/
theorem c2_counterexample_count_not_total :
    (assembleResponse 1 1 "E10" 10 1 [rEx2, rEx]).count = some 1 ∧
    [rEx2, rEx].length = 2 ∧
    (assembleResponse 1 1 "E10" 10 1 [rEx2, rEx]).results = some [rEx2] ∧
    (assembleResponse 1 1 "E10" 10 1 [rEx2, rEx]).count ≠
      some (([rEx2, rEx].length : ℕ) : Int) := by
  refine ⟨by decide, by decide, by decide, by decide⟩

/-- Claim C2 amended: a successful /cheapest response contains the result
list truncated to limit (clamped to a minimum of 1) together with
count = min(untruncated total, unclamped limit); the untruncated total
itself is not part of the response. -/
theorem c2_amended_truncation_and_count (lat lon : ℚ) (fuel : String) (radiusKm : ℚ)
    (limit : Int) (results : List RankedResult) :
    (assembleResponse lat lon fuel radiusKm limit results).count =
      some (min (results.length : Int) limit) ∧
    (assembleResponse lat lon fuel radiusKm limit results).results =
      some (results.take (max 1 limit).toNat) ∧
    ((assembleResponse lat lon fuel radiusKm limit results).results.getD []).length =
      min results.length (max 1 limit).toNat := by
  refine ⟨rfl, rfl, ?_⟩
  simp only [assembleResponse, Option.getD_some, List.length_take]
  omega

/-- Claim C10: in a successful response, count = min(totalMatches, limit) with
the unclamped limit while the results array has length
min(totalMatches, max(1, limit)); hence for limit < 1 with at least one
match the response carries one result but count ≤ 0, so count differs from
the number of returned results. -/
theorem c10_count_min_unclamped_limit (lat lon : ℚ) (fuel : String) (radiusKm : ℚ)
    (limit : Int) (results : List RankedResult) :
    (assembleResponse lat lon fuel radiusKm limit results).count =
      some (min (results.length : Int) limit) ∧
    ((assembleResponse lat lon fuel radiusKm limit results).results.getD []).length =
      min results.length (max 1 limit).toNat ∧
    (limit < 1 → 1 ≤ results.length →
      ((assembleResponse lat lon fuel radiusKm limit results).results.getD []).length = 1 ∧
      min (results.length : Int) limit ≤ 0 ∧
      (assembleResponse lat lon fuel radiusKm limit results).count ≠
        some ((((assembleResponse lat lon fuel radiusKm limit results).results.getD
          []).length : ℕ) : Int)) := by
  refine ⟨rfl, ?_, ?_⟩
  · simp only [assembleResponse, Option.getD_some, List.length_take]
    omega
  · intro h1 h2
    have hmax : max (1 : Int) limit = 1 := by omega
    have hlen : ((assembleResponse lat lon fuel radiusKm limit
        results).results.getD []).length = 1 := by
      simp only [assembleResponse, Option.getD_some, List.length_take, hmax]
      omega
    refine ⟨hlen, ?_, ?_⟩
    · have h := min_le_right (results.length : Int) limit
      omega
    · rw [hlen]
      simp only [assembleResponse, ne_eq, Option.some.injEq]
      omega

/-- Witness for C10 at a one-element result list and limit 0: one result is
returned while count is 0. -/
theorem c10_witness :
    (0 : Int) < 1 ∧ 1 ≤ [rEx].length ∧
    ((assembleResponse 1 1 "E10" 10 0 [rEx]).results.getD []).length = 1 ∧
    min (([rEx].length : Int)) 0 ≤ 0 ∧
    (assembleResponse 1 1 "E10" 10 0 [rEx]).count ≠
      some ((((assembleResponse 1 1 "E10" 10 0 [rEx]).results.getD []).length : ℕ) : Int) := by
  have h := (c10_count_min_unclamped_limit 1 1 "E10" 10 0 [rEx]).2.2 (by decide) (by decide)
  exact ⟨by decide, by decide, h.1, h.2.1, h.2.2⟩

end FuelFinder
